import Mathlib

/-!
Verification development for the rgb-proxy-server request handlers
(`src/controllers/api.ts`).

The module is embedded shallowly:

* JSON values delivered to the JSON-RPC handlers are `JValue`; the
  `Partial<JSONRPCParams> | undefined` parameter object is `Option JValue`.
* The nedb datastore keeps `Consignment` and `Media` documents; queries
  discriminate on the `blindedutxo` / `attachment_id` field, so the two
  kinds are kept in two lists inside the state `St`.
* Each on-disk directory (`tmp`, `consignments`, `media`) is an association
  list from file name to file content (a list of byte values).
* Handlers are state-passing functions returning `Except ApiError α × St`
  for the JSON-RPC surface and `RestResp × St` for the Express routes.

`genHashFromFile` (from `src/util.ts`) and `APP_VERSION` (from
`src/version.ts`) are not part of the provided sources and are modelled
from the spec; their doc comments say so.
-/

set_option linter.unusedVariables false

/-- A JSON value as seen by the handlers after body parsing.  `undefined`
cannot occur inside parsed JSON, so it has no constructor. -/
inductive JValue where
  | vstr : String → JValue
  | vbool : Bool → JValue
  | vnum : Int → JValue
  | vnull : JValue
  | varr : List JValue → JValue
  | vdict : List (String × JValue) → JValue
deriving BEq, Repr

/-- JavaScript truthiness (`!!v`) of a parsed JSON value. -/
def JValue.truthy : JValue → Bool
  | .vstr s => !(s == "")
  | .vbool b => b
  | .vnum n => !(n == 0)
  | .vnull => false
  | .varr _ => true
  | .vdict _ => true

/-- `isString` from the source: `typeof data === "string"`. -/
def JValue.isStr : JValue → Bool
  | .vstr _ => true
  | _ => false

/-- The string payload of a string value (only used after `isStr` holds). -/
def JValue.getStr : JValue → String
  | .vstr s => s
  | _ => ""

/-- Key lookup in a parsed JSON object.  JSON objects have unique keys, so
first match is the JavaScript property access. -/
def dictLookup (d : List (String × JValue)) (k : String) : Option JValue :=
  (d.find? (fun e => e.1 == k)).map (fun e => e.2)

/-- The application errors thrown by the handlers (`src/errors`).
`storageIOError` stands for an `fs` exception (for example ENOENT when a
referenced file is absent); it is unreachable under the staging
preconditions used below. -/
inductive ApiError where
  | missingBlindedUTXO
  | invalidBlindedUTXO
  | missingAttachmentID
  | invalidAttachmentID
  | missingAck
  | invalidAck
  | missingFile
  | notFoundConsignment
  | notFoundMedia
  | cannotChangeUploadedFile
  | cannotChangeAck
  | storageIOError
deriving DecidableEq, Repr

/-- The `Consignment` document interface of the source (the `_id` field the
datastore adds is irrelevant to every query and is omitted). -/
structure Consignment where
  filename : String
  blindedutxo : String
  ack : Option Bool := none
  nack : Option Bool := none
  responded : Option Bool := none
deriving DecidableEq, Repr

/-- The `Media` document interface of the source. -/
structure Media where
  filename : String
  attachment_id : String
deriving DecidableEq, Repr

/-- A directory on disk: file name to file content (bytes). -/
abbrev Dir := List (String × List Nat)

/-- `fs.readFileSync` outcome: the content of the named file, if present. -/
def readFile (d : Dir) (n : String) : Option (List Nat) :=
  (d.find? (fun e => e.1 == n)).map (fun e => e.2)

/-- `fs.existsSync`. -/
def existsSync (d : Dir) (n : String) : Bool :=
  d.any (fun e => e.1 == n)

/-- `fs.unlinkSync`: remove the named file. -/
def unlinkSync (d : Dir) (n : String) : Dir :=
  d.filter (fun e => !(e.1 == n))

/-- Target-directory effect of `fs.renameSync`: the content appears under
the new name, silently replacing a file already bearing it. -/
def writeMoved (d : Dir) (n : String) (b : List Nat) : Dir :=
  (n, b) :: unlinkSync d n

/-- The server state: the two nedb document collections and the three
working directories. -/
structure St where
  consignments : List Consignment
  media : List Media
  tempDir : Dir
  consignmentDir : Dir
  mediaDir : Dir
deriving DecidableEq, Repr

/-- nedb `ds.findOne({blindedutxo: k})`. -/
def findOneConsignment (l : List Consignment) (k : String) : Option Consignment :=
  l.find? (fun c => c.blindedutxo == k)

/-- nedb `ds.findOne({attachment_id: k})`. -/
def findOneMedia (l : List Media) (k : String) : Option Media :=
  l.find? (fun m => m.attachment_id == k)

/-- nedb `ds.update({blindedutxo: k}, {$set: ...}, {multi: false})`:
rewrite the first document whose `blindedutxo` equals `k`. -/
def updateFirst (l : List Consignment) (k : String) (f : Consignment → Consignment) :
    List Consignment :=
  match l with
  | [] => []
  | c :: rest => if c.blindedutxo == k then f c :: rest else c :: updateFirst rest k f

/-- Modelled from the spec: `genHashFromFile` lives in `src/util.ts`, which
is not among the provided sources.  Per §4.1 it is the canonical
content-derived naming function — a deterministic digest under which
identical byte sequences always receive identical names and distinct byte
sequences are assumed to receive distinct names (cryptographic hash, no
collisions in practice).  It is modelled as an injective encoding of the
byte list into a string, one character per byte value. -/
def genHashFromFile (bytes : List Nat) : String :=
  ⟨bytes.map (fun b => Char.ofNat b)⟩

/-- Modelled from the spec: the application version string comes from
`src/version.ts`, which is not among the provided sources; its exact value
is irrelevant to every claim. -/
def APP_VERSION : String := "appVersion"

def PROTOCOL_VERSION : String := "0.1"

/-- `Math.trunc` on a rational (truncation toward zero), used for the
`uptime` seconds value. -/
def mathTrunc (q : ℚ) : Int := Int.tdiv q.num q.den

/-- `getAckParam`. -/
def getAckParam (params : Option JValue) : Except ApiError Bool :=
  match params with
  | some (.vdict d) =>
    match dictLookup d "ack" with
    | none => .error .missingAck
    | some v =>
      match v with
      | .vbool b => .ok b
      | _ => .error .invalidAck
  | _ => .error .missingAck

/-- `getAttachmentIDParam`. -/
def getAttachmentIDParam (params : Option JValue) : Except ApiError String :=
  match params with
  | some (.vdict d) =>
    match dictLookup d "attachment_id" with
    | none => .error .missingAttachmentID
    | some v =>
      if !v.truthy || !v.isStr then .error .invalidAttachmentID else .ok v.getStr
  | _ => .error .missingAttachmentID

/-- `getBlindedUTXOParam`. -/
def getBlindedUTXOParam (params : Option JValue) : Except ApiError String :=
  match params with
  | some (.vdict d) =>
    match dictLookup d "blinded_utxo" with
    | none => .error .missingBlindedUTXO
    | some v =>
      if !v.truthy || !v.isStr then .error .invalidBlindedUTXO else .ok v.getStr
  | _ => .error .missingBlindedUTXO

/-- `getConsignment`: validate the key, then look the record up. -/
def getConsignment (params : Option JValue) (l : List Consignment) :
    Except ApiError Consignment :=
  match getBlindedUTXOParam params with
  | .error e => .error e
  | .ok k =>
    match findOneConsignment l k with
    | none => .error .notFoundConsignment
    | some c => .ok c

/-- The base64 alphabet. -/
def base64Chars : List Char :=
  "ABCDEFGHIJKLMNOPQRSTUVWXYZabcdefghijklmnopqrstuvwxyz0123456789+/".toList

/-- The character for a six-bit group. -/
def sextetToChar (n : Nat) : Char := base64Chars.getD n '='

/-- Position of a character in the base64 alphabet. -/
def charToSextet (c : Char) : Option Nat := base64Chars.indexOf? c

/-- Standard base64 (as produced by `Buffer.toString("base64")`): three
bytes become four alphabet characters, a final group of one or two bytes
is padded with `=`. -/
def base64EncodeList : List Nat → List Char
  | [] => []
  | [a] => [sextetToChar (a / 4), sextetToChar (a % 4 * 16), '=', '=']
  | [a, b] =>
      [sextetToChar (a / 4), sextetToChar (a % 4 * 16 + b / 16),
       sextetToChar (b % 16 * 4), '=']
  | a :: b :: c :: rest =>
      sextetToChar (a / 4) :: sextetToChar (a % 4 * 16 + b / 16) ::
      sextetToChar (b % 16 * 4 + c / 64) :: sextetToChar (c % 64) ::
      base64EncodeList rest

def base64Encode (bytes : List Nat) : String := ⟨base64EncodeList bytes⟩

/-- Base64 decoding, the transport-decoding direction of the round
trip in the spec: four characters at a time, honouring `=` padding at the end. -/
def base64DecodeList : List Char → Option (List Nat)
  | [] => some []
  | c1 :: c2 :: c3 :: c4 :: rest =>
    match charToSextet c1, charToSextet c2 with
    | some s1, some s2 =>
      if c3 == '=' then
        if c4 == '=' && rest.isEmpty then some [s1 * 4 + s2 / 16] else none
      else
        match charToSextet c3 with
        | some s3 =>
          if c4 == '=' then
            if rest.isEmpty then some [s1 * 4 + s2 / 16, s2 % 16 * 16 + s3 / 4]
            else none
          else
            match charToSextet c4 with
            | some s4 =>
              (base64DecodeList rest).map
                (fun tail =>
                  (s1 * 4 + s2 / 16) :: (s2 % 16 * 16 + s3 / 4) ::
                  (s3 % 4 * 64 + s4) :: tail)
            | none => none
        | none => none
    | _, _ => none
  | _ => none

def base64Decode (s : String) : Option (List Nat) := base64DecodeList s.data

/-- JSON-RPC `server.info`: the result object, in source field order. -/
def serverInfo (uptime : ℚ) : List (String × JValue) :=
  [("protocol_version", .vstr PROTOCOL_VERSION),
   ("version", .vstr APP_VERSION),
   ("uptime", .vnum (mathTrunc uptime))]

/-- JSON-RPC `consignment.get`. -/
def consignmentGet (params : Option JValue) (s : St) : Except ApiError String :=
  match getConsignment params s.consignments with
  | .error e => .error e
  | .ok c =>
    match readFile s.consignmentDir c.filename with
    | none => .error .storageIOError
    | some bytes => .ok (base64Encode bytes)

/-- The `try` block of JSON-RPC `consignment.post`.  `file` is the multer
handle (the name of the staged file inside the temp directory). -/
def consignmentPostBody (params : Option JValue) (file : Option String) (s : St) :
    Except ApiError Bool × St :=
  match getBlindedUTXOParam params with
  | .error e => (.error e, s)
  | .ok blindedUTXO =>
    match file with
    | none => (.error .missingFile, s)
    | some fname =>
      match readFile s.tempDir fname with
      | none => (.error .storageIOError, s)
      | some bytes =>
        let fileHash := genHashFromFile bytes
        match findOneConsignment s.consignments blindedUTXO with
        | some prevFile =>
          if prevFile.filename == fileHash then
            (.ok false, { s with tempDir := unlinkSync s.tempDir fname })
          else
            (.error .cannotChangeUploadedFile, s)
        | none =>
          (.ok true,
            { s with
              tempDir := unlinkSync s.tempDir fname,
              consignmentDir := writeMoved s.consignmentDir fileHash bytes,
              consignments := s.consignments ++
                [{ filename := fileHash, blindedutxo := blindedUTXO }] })

/-- JSON-RPC `consignment.post`, catch block included: on any error the
staged temp file, when still present, is unlinked before rethrowing. -/
def consignmentPost (params : Option JValue) (file : Option String) (s : St) :
    Except ApiError Bool × St :=
  match consignmentPostBody params file s with
  | (.ok v, s1) => (.ok v, s1)
  | (.error e, s1) =>
    match file with
    | some fname =>
      (.error e,
        if existsSync s1.tempDir fname then { s1 with tempDir := unlinkSync s1.tempDir fname }
        else s1)
    | none => (.error e, s1)

/-- JSON-RPC `media.get`. -/
def mediaGet (params : Option JValue) (s : St) : Except ApiError String :=
  match getAttachmentIDParam params with
  | .error e => .error e
  | .ok attachmentID =>
    match findOneMedia s.media attachmentID with
    | none => .error .notFoundMedia
    | some m =>
      match readFile s.mediaDir m.filename with
      | none => .error .storageIOError
      | some bytes => .ok (base64Encode bytes)

/-- The `try` block of JSON-RPC `media.post`. -/
def mediaPostBody (params : Option JValue) (file : Option String) (s : St) :
    Except ApiError Bool × St :=
  match getAttachmentIDParam params with
  | .error e => (.error e, s)
  | .ok attachmentID =>
    match file with
    | none => (.error .missingFile, s)
    | some fname =>
      match readFile s.tempDir fname with
      | none => (.error .storageIOError, s)
      | some bytes =>
        let fileHash := genHashFromFile bytes
        match findOneMedia s.media attachmentID with
        | some prevFile =>
          if prevFile.filename == fileHash then
            (.ok false, { s with tempDir := unlinkSync s.tempDir fname })
          else
            (.error .cannotChangeUploadedFile, s)
        | none =>
          (.ok true,
            { s with
              tempDir := unlinkSync s.tempDir fname,
              mediaDir := writeMoved s.mediaDir fileHash bytes,
              media := s.media ++ [{ filename := fileHash, attachment_id := attachmentID }] })

/-- JSON-RPC `media.post`, catch block included. -/
def mediaPost (params : Option JValue) (file : Option String) (s : St) :
    Except ApiError Bool × St :=
  match mediaPostBody params file s with
  | (.ok v, s1) => (.ok v, s1)
  | (.error e, s1) =>
    match file with
    | some fname =>
      (.error e,
        if existsSync s1.tempDir fname then { s1 with tempDir := unlinkSync s1.tempDir fname }
        else s1)
    | none => (.error e, s1)

/-- JSON-RPC `ack.get`. -/
def ackGet (params : Option JValue) (s : St) : Except ApiError (Option Bool) :=
  match getConsignment params s.consignments with
  | .error e => .error e
  | .ok c => .ok c.ack

/-- JSON-RPC `ack.post`.  Note the source order: the consignment lookup
(`getConsignment`, a store read) happens before `getAckParam` validates
the `ack` parameter. -/
def ackPost (params : Option JValue) (s : St) : Except ApiError Bool × St :=
  match getConsignment params s.consignments with
  | .error e => (.error e, s)
  | .ok consignment =>
    match getAckParam params with
    | .error e => (.error e, s)
    | .ok ack =>
      match consignment.ack with
      | some prev =>
        if prev == ack then (.ok false, s) else (.error .cannotChangeAck, s)
      | none =>
        (.ok true,
          { s with
            consignments := updateFirst s.consignments consignment.blindedutxo
              (fun c => { c with ack := some ack }) })

/-- A REST response: HTTP status and the JSON body, in source field order. -/
structure RestResp where
  status : Nat
  body : List (String × JValue)
deriving BEq, Repr

/-- JavaScript falsiness of an optional request-body string field
(`!req.body.x`): absent or empty. -/
def strFalsy (b : Option String) : Bool := b.getD "" == ""

/-- Express `POST /consignment`.  `blindedutxo` is the request-body field,
`file` the multer handle of the staged upload. -/
def restPostConsignment (blindedutxo : Option String) (file : Option String) (s : St) :
    RestResp × St :=
  if strFalsy blindedutxo then
    (⟨400, [("success", .vbool false), ("error", .vstr "blindedutxo missing!")]⟩, s)
  else
    let key := blindedutxo.getD ""
    match file with
    | none =>
      (⟨400, [("success", .vbool false), ("error", .vstr "Consignment file is missing!")]⟩, s)
    | some fname =>
      match readFile s.tempDir fname with
      | none => (⟨500, [("success", .vbool false)]⟩, s)
      | some bytes =>
        let fileHash := genHashFromFile bytes
        match findOneConsignment s.consignments key with
        | some prevConsignment =>
          if prevConsignment.filename == fileHash then
            (⟨200, [("success", .vbool true)]⟩, s)
          else
            (⟨403, [("success", .vbool false), ("error", .vstr "Cannot change uploaded file!")]⟩, s)
        | none =>
          let s1 : St :=
            { s with
              tempDir := unlinkSync s.tempDir fname,
              consignmentDir := writeMoved s.consignmentDir fileHash bytes,
              consignments := s.consignments ++ [{ filename := fileHash, blindedutxo := key }] }
          let s2 : St :=
            if existsSync s1.tempDir fname then { s1 with tempDir := unlinkSync s1.tempDir fname }
            else s1
          (⟨200, [("success", .vbool true)]⟩, s2)

/-- Express `POST /media`. -/
def restPostMedia (attachmentID : Option String) (file : Option String) (s : St) :
    RestResp × St :=
  if strFalsy attachmentID then
    (⟨400, [("success", .vbool false), ("error", .vstr "attachment_id missing!")]⟩, s)
  else
    let key := attachmentID.getD ""
    match file with
    | none =>
      (⟨400, [("success", .vbool false), ("error", .vstr "Media file is missing!")]⟩, s)
    | some fname =>
      match readFile s.tempDir fname with
      | none => (⟨500, [("success", .vbool false)]⟩, s)
      | some bytes =>
        let fileHash := genHashFromFile bytes
        match findOneMedia s.media key with
        | some prevMedia =>
          if prevMedia.filename == fileHash then
            (⟨200, [("success", .vbool true)]⟩, s)
          else
            (⟨403, [("success", .vbool false), ("error", .vstr "Cannot change uploaded file!")]⟩, s)
        | none =>
          let s1 : St :=
            { s with
              tempDir := unlinkSync s.tempDir fname,
              mediaDir := writeMoved s.mediaDir fileHash bytes,
              media := s.media ++ [{ filename := fileHash, attachment_id := key }] }
          let s2 : St :=
            if existsSync s1.tempDir fname then { s1 with tempDir := unlinkSync s1.tempDir fname }
            else s1
          (⟨200, [("success", .vbool true)]⟩, s2)

/-- Express `GET /consignment/:blindedutxo`. -/
def restGetConsignment (blindedutxo : String) (s : St) : RestResp :=
  if !(blindedutxo == "") then
    match findOneConsignment s.consignments blindedutxo with
    | none => ⟨404, [("success", .vbool false), ("error", .vstr "No consignment found!")]⟩
    | some c =>
      match readFile s.consignmentDir c.filename with
      | none => ⟨500, [("success", .vbool false)]⟩
      | some bytes => ⟨200, [("success", .vbool true), ("consignment", .vstr (base64Encode bytes))]⟩
  else ⟨400, [("success", .vbool false), ("error", .vstr "blindedutxo missing!")]⟩

/-- Express `GET /media/:attachment_id`. -/
def restGetMedia (attachmentID : String) (s : St) : RestResp :=
  if !(attachmentID == "") then
    match findOneMedia s.media attachmentID with
    | none => ⟨404, [("success", .vbool false), ("error", .vstr "No media found!")]⟩
    | some m =>
      match readFile s.mediaDir m.filename with
      | none => ⟨500, [("success", .vbool false)]⟩
      | some bytes => ⟨200, [("success", .vbool true), ("media", .vstr (base64Encode bytes))]⟩
  else ⟨400, [("success", .vbool false), ("error", .vstr "attachment_id missing!")]⟩

/-- Express `POST /ack`: guarded by the legacy `responded` flag
(`!!c.responded`), then `$set` of `ack: true, nack: false, responded: true`
on the first matching document. -/
def restPostAck (blindedutxo : Option String) (s : St) : RestResp × St :=
  if strFalsy blindedutxo then
    (⟨400, [("success", .vbool false), ("error", .vstr "blindedutxo missing!")]⟩, s)
  else
    let key := blindedutxo.getD ""
    match findOneConsignment s.consignments key with
    | none => (⟨404, [("success", .vbool false), ("error", .vstr "No consignment found!")]⟩, s)
    | some c =>
      if c.responded.getD false then
        (⟨403, [("success", .vbool false), ("error", .vstr "Already responded!")]⟩, s)
      else
        (⟨200, [("success", .vbool true)]⟩,
          { s with
            consignments := updateFirst s.consignments key
              (fun r => { r with ack := some true, nack := some false, responded := some true }) })

/-- Express `POST /nack`: same `responded` guard, then `$set` of
`nack: true, ack: false, responded: true`.  (Its 404 body carries no
`error` field, and it refetches the record only to drop it.) -/
def restPostNack (blindedutxo : Option String) (s : St) : RestResp × St :=
  if strFalsy blindedutxo then
    (⟨400, [("success", .vbool false), ("error", .vstr "blindedutxo missing!")]⟩, s)
  else
    let key := blindedutxo.getD ""
    match findOneConsignment s.consignments key with
    | none => (⟨404, [("success", .vbool false)]⟩, s)
    | some c =>
      if c.responded.getD false then
        (⟨403, [("success", .vbool false), ("error", .vstr "Already responded!")]⟩, s)
      else
        (⟨200, [("success", .vbool true)]⟩,
          { s with
            consignments := updateFirst s.consignments key
              (fun r => { r with nack := some true, ack := some false, responded := some true }) })

/-- Express `GET /ack/:blindedutxo`: reports `!!c.ack` and `!!c.nack`. -/
def restGetAck (blindedutxo : String) (s : St) : RestResp :=
  if blindedutxo == "" then
    ⟨400, [("success", .vbool false), ("error", .vstr "blindedutxo missing!")]⟩
  else
    match findOneConsignment s.consignments blindedutxo with
    | none => ⟨404, [("success", .vbool false), ("error", .vstr "No consignment found!")]⟩
    | some c =>
      ⟨200, [("success", .vbool true), ("ack", .vbool (c.ack.getD false)),
             ("nack", .vbool (c.nack.getD false))]⟩

/-- Express `GET /getinfo`. -/
def restGetinfo (uptime : ℚ) : RestResp :=
  ⟨200, [("version", .vstr APP_VERSION), ("uptime", .vnum (mathTrunc uptime))]⟩

/-- Multer disk staging: an incoming file payload is written into the temp
directory under a fresh random name before the route handler runs, and the
handler receives the file handle. -/
def stageFile (payload : Option (List Nat)) (tmpName : String) (s : St) :
    Option String × St :=
  match payload with
  | none => (none, s)
  | some bytes => (some tmpName, { s with tempDir := (tmpName, bytes) :: s.tempDir })

/-- A full `consignment.post` request: multer staging followed by the
JSON-RPC handler. -/
def rpcConsignmentPostReq (params : Option JValue) (payload : Option (List Nat))
    (tmpName : String) (s : St) : Except ApiError Bool × St :=
  let staged := stageFile payload tmpName s
  consignmentPost params staged.1 staged.2

/-- A full `media.post` request: multer staging followed by the JSON-RPC
handler. -/
def rpcMediaPostReq (params : Option JValue) (payload : Option (List Nat))
    (tmpName : String) (s : St) : Except ApiError Bool × St :=
  let staged := stageFile payload tmpName s
  mediaPost params staged.1 staged.2

/-- A full REST `POST /consignment` request: multer staging followed by the
route handler. -/
def restPostConsignmentReq (blindedutxo : Option String) (payload : Option (List Nat))
    (tmpName : String) (s : St) : RestResp × St :=
  let staged := stageFile payload tmpName s
  restPostConsignment blindedutxo staged.1 staged.2

/-- A full REST `POST /media` request: multer staging followed by the route
handler. -/
def restPostMediaReq (attachmentID : Option String) (payload : Option (List Nat))
    (tmpName : String) (s : St) : RestResp × St :=
  let staged := stageFile payload tmpName s
  restPostMedia attachmentID staged.1 staged.2

/-- The operations that can touch the `ack` field of a consignment record:
JSON-RPC `ack.post` and the two legacy routes. -/
inductive AckOp where
  | rpcAckPost (params : Option JValue)
  | restAck (blindedutxo : Option String)
  | restNack (blindedutxo : Option String)

/-- State transition of an `AckOp` (the response is discarded). -/
def AckOp.step (op : AckOp) (s : St) : St :=
  match op with
  | .rpcAckPost params => (ackPost params s).2
  | .restAck b => (restPostAck b s).2
  | .restNack b => (restPostNack b s).2

/-- Number of consignment records stored under a key. -/
def countConsignments (l : List Consignment) (k : String) : Nat :=
  (l.filter (fun c => c.blindedutxo == k)).length

/-- Number of media records stored under a key. -/
def countMedia (l : List Media) (k : String) : Nat :=
  (l.filter (fun m => m.attachment_id == k)).length

/-- Number of files bearing a given name in a directory. -/
def countFiles (d : Dir) (n : String) : Nat :=
  (d.filter (fun e => e.1 == n)).length

/-- JSON-RPC params object `{blinded_utxo: k, ack: v}` for `ack.post`. -/
def mkAckParams (k : String) (v : Bool) : Option JValue :=
  some (.vdict [("blinded_utxo", .vstr k), ("ack", .vbool v)])

/-- Setting the `ack` field, as the `$set` update of `ack.post` does. -/
def setAckField (v : Bool) : Consignment → Consignment :=
  fun c => { c with ack := some v }

/-- JSON-RPC params object `{blinded_utxo: k}`. -/
def mkBUParams (k : String) : Option JValue := some (.vdict [("blinded_utxo", .vstr k)])

/-- JSON-RPC params object `{attachment_id: k}`. -/
def mkAIDParams (k : String) : Option JValue := some (.vdict [("attachment_id", .vstr k)])

/-- Legacy-field consistency of one record: `responded` is truthy iff `ack`
is set, and `nack` is truthy iff `ack` is `false`. -/
def legacyConsistent (c : Consignment) : Prop :=
  ((c.responded = some true) ↔ ¬ c.ack = none) ∧ ((c.nack = some true) ↔ c.ack = some false)

lemma char_ofNat_toNat {b : Nat} (h : b < 256) : (Char.ofNat b).toNat = b := by
  have hv : b < 55296 ∨ 57343 < b ∧ b < 1114112 := Or.inl (by omega)
  simp [Char.ofNat, hv, Char.ofNatAux, Char.toNat, UInt32.toNat, UInt32.ofNatTruncate,
    UInt32.ofNat]

/-- The modelled content digest separates byte sequences. -/
lemma genHashFromFile_injOn {b1 b2 : List Nat} (h1 : ∀ x ∈ b1, x < 256)
    (h2 : ∀ x ∈ b2, x < 256) (he : genHashFromFile b1 = genHashFromFile b2) :
    b1 = b2 := by
  have hd : b1.map (fun b => Char.ofNat b) = b2.map (fun b => Char.ofNat b) :=
    congrArg String.data he
  have key : ∀ (l : List Nat), (∀ x ∈ l, x < 256) →
      (l.map (fun b => Char.ofNat b)).map Char.toNat = l := by
    intro l hl
    induction l with
    | nil => simp
    | cons x xs ih =>
      simp only [List.map_cons, List.cons.injEq]
      constructor
      · exact char_ofNat_toNat (hl x (by simp))
      · exact ih (fun y hy => hl y (by simp [hy]))
  calc b1 = (b1.map (fun b => Char.ofNat b)).map Char.toNat := (key b1 h1).symm
    _ = (b2.map (fun b => Char.ofNat b)).map Char.toNat := by rw [hd]
    _ = b2 := key b2 h2

lemma charToSextet_sextetToChar : ∀ n < 64, charToSextet (sextetToChar n) = some n := by
  decide

lemma sextetToChar_ne_pad : ∀ n < 64, (sextetToChar n == '=') = false := by decide

/-- Decoding inverts encoding on byte sequences. -/
theorem base64DecodeList_encodeList (bytes : List Nat) (h : ∀ b ∈ bytes, b < 256) :
    base64DecodeList (base64EncodeList bytes) = some bytes := by
  induction bytes using base64EncodeList.induct with
  | case1 => simp [base64EncodeList, base64DecodeList]
  | case2 a =>
    have ha : a < 256 := h a (by simp)
    simp [base64EncodeList, base64DecodeList,
      charToSextet_sextetToChar (a / 4) (by omega),
      charToSextet_sextetToChar (a % 4 * 16) (by omega)]
    omega
  | case3 a b =>
    have ha : a < 256 := h a (by simp)
    have hb : b < 256 := h b (by simp)
    simp [base64EncodeList, base64DecodeList,
      charToSextet_sextetToChar (a / 4) (by omega),
      charToSextet_sextetToChar (a % 4 * 16 + b / 16) (by omega),
      charToSextet_sextetToChar (b % 16 * 4) (by omega),
      sextetToChar_ne_pad (b % 16 * 4) (by omega)]
    omega
  | case4 a b c rest ih =>
    have ha : a < 256 := h a (by simp)
    have hb : b < 256 := h b (by simp)
    have hc : c < 256 := h c (by simp)
    have hrest : ∀ x ∈ rest, x < 256 := fun x hx => h x (by simp [hx])
    simp [base64EncodeList, base64DecodeList,
      charToSextet_sextetToChar (a / 4) (by omega),
      charToSextet_sextetToChar (a % 4 * 16 + b / 16) (by omega),
      charToSextet_sextetToChar (b % 16 * 4 + c / 64) (by omega),
      charToSextet_sextetToChar (c % 64) (by omega),
      sextetToChar_ne_pad (b % 16 * 4 + c / 64) (by omega),
      sextetToChar_ne_pad (c % 64) (by omega),
      ih hrest]
    omega

lemma findOneConsignment_updateFirst_ne (l : List Consignment) (k q : String)
    (f : Consignment → Consignment) (hf : ∀ c, (f c).blindedutxo = c.blindedutxo)
    (hq : q ≠ k) :
    findOneConsignment (updateFirst l k f) q = findOneConsignment l q := by
  induction l with
  | nil => simp [updateFirst, findOneConsignment]
  | cons c rest ih =>
    simp only [updateFirst]
    by_cases hck : c.blindedutxo = k
    · have h1 : (c.blindedutxo == k) = true := by simp [hck]
      have h2 : ((f c).blindedutxo == q) = false := by simp [hf, hck, Ne.symm hq]
      have h3 : (c.blindedutxo == q) = false := by simp [hck, Ne.symm hq]
      simp [findOneConsignment, h1, h2, h3, List.find?]
    · have h1 : (c.blindedutxo == k) = false := by simp [hck]
      simp only [h1, if_false]
      simp only [findOneConsignment, List.find?] at *
      cases hcq : (c.blindedutxo == q) <;> simp [hcq, ih]

lemma findOneConsignment_updateFirst_self (l : List Consignment) (k : String)
    (f : Consignment → Consignment) (hf : ∀ c, (f c).blindedutxo = c.blindedutxo) :
    findOneConsignment (updateFirst l k f) k = (findOneConsignment l k).map f := by
  induction l with
  | nil => simp [updateFirst, findOneConsignment]
  | cons c rest ih =>
    simp only [updateFirst]
    by_cases hck : c.blindedutxo = k
    · have h1 : (c.blindedutxo == k) = true := by simp [hck]
      have h2 : ((f c).blindedutxo == k) = true := by simp [hf, hck]
      simp [findOneConsignment, h1, h2, List.find?]
    · have h1 : (c.blindedutxo == k) = false := by simp [hck]
      simp only [h1, if_false]
      simp only [findOneConsignment, List.find?] at *
      simp [h1, ih]

lemma filter_nil_of_find?_none {α} (p : α → Bool) (l : List α) (h : l.find? p = none) :
    l.filter p = [] := by
  rw [List.find?_eq_none] at h
  rw [List.filter_eq_nil_iff]
  exact fun a ha => by simp [h a ha]

lemma findOneConsignment_append_none (l : List Consignment) (k : String)
    (c : Consignment) (h : findOneConsignment l k = none) (hc : (c.blindedutxo == k) = true) :
    findOneConsignment (l ++ [c]) k = some c := by
  simp only [findOneConsignment] at *
  rw [List.find?_append, h]
  simp [List.find?, hc]

lemma findOneMedia_append_none (l : List Media) (k : String)
    (m : Media) (h : findOneMedia l k = none) (hm : (m.attachment_id == k) = true) :
    findOneMedia (l ++ [m]) k = some m := by
  simp only [findOneMedia] at *
  rw [List.find?_append, h]
  simp [List.find?, hm]

lemma countConsignments_append (l : List Consignment) (k : String) (c : Consignment) :
    countConsignments (l ++ [c]) k =
      countConsignments l k + (if c.blindedutxo == k then 1 else 0) := by
  simp only [countConsignments, List.filter_append]
  cases h : (c.blindedutxo == k) <;> simp [h]

lemma countMedia_append (l : List Media) (k : String) (m : Media) :
    countMedia (l ++ [m]) k =
      countMedia l k + (if m.attachment_id == k then 1 else 0) := by
  simp only [countMedia, List.filter_append]
  cases h : (m.attachment_id == k) <;> simp [h]

lemma countFiles_writeMoved (d : Dir) (n : String) (b : List Nat) :
    countFiles (writeMoved d n b) n = 1 := by
  simp only [countFiles, writeMoved, unlinkSync, List.filter]
  have : (d.filter (fun e => !(e.1 == n))).filter (fun e => e.1 == n) = [] := by
    rw [List.filter_filter]
    apply List.filter_eq_nil_iff.mpr
    intro a ha
    cases h : (a.1 == n) <;> simp [h]
  simp [this]

lemma blindedutxo_of_findOne {l : List Consignment} {k : String} {c : Consignment}
    (h : findOneConsignment l k = some c) : c.blindedutxo = k := by
  have := List.find?_some h
  simpa using this

/-- C5: the generic setter `ack.post` follows the ack state machine exactly:
with `ack` unset it stores the requested boolean and returns `true`
("changed"); with `ack` already the same value it returns `false` and the
state is untouched; with `ack` set to the opposite value it fails with
`CannotChangeAck` and the state is untouched. -/
theorem C5_ackPost_state_machine (s : St) (k : String) (c : Consignment) (v : Bool)
    (hk : k ≠ "") (hfind : findOneConsignment s.consignments k = some c) :
    (c.ack = none →
      (ackPost (mkAckParams k v) s).1 = .ok true ∧
      findOneConsignment (ackPost (mkAckParams k v) s).2.consignments k =
        some { c with ack := some v }) ∧
    (c.ack = some v → ackPost (mkAckParams k v) s = (.ok false, s)) ∧
    (c.ack = some (!v) → ackPost (mkAckParams k v) s = (.error .cannotChangeAck, s)) := by
  have hbu : c.blindedutxo = k := blindedutxo_of_findOne hfind
  refine ⟨fun hack => ?_, fun hack => ?_, fun hack => ?_⟩
  · have h1 : ackPost (mkAckParams k v) s =
        (.ok true, { s with consignments := updateFirst s.consignments k (setAckField v) }) := by
      simp [ackPost, getConsignment, getBlindedUTXOParam, mkAckParams, dictLookup,
        List.find?, JValue.truthy, JValue.isStr, JValue.getStr, hk, hfind,
        getAckParam, hack, hbu]
      rfl
    have h2 : (ackPost (mkAckParams k v) s).2.consignments =
        updateFirst s.consignments k (setAckField v) := by rw [h1]
    refine ⟨by rw [h1], ?_⟩
    rw [h2, findOneConsignment_updateFirst_self s.consignments k (setAckField v) (fun r => rfl),
      hfind]
    rfl
  · simp [ackPost, getConsignment, getBlindedUTXOParam, mkAckParams, dictLookup,
      List.find?, JValue.truthy, JValue.isStr, JValue.getStr, hk, hfind,
      getAckParam, hack]
  · simp [ackPost, getConsignment, getBlindedUTXOParam, mkAckParams, dictLookup,
      List.find?, JValue.truthy, JValue.isStr, JValue.getStr, hk, hfind,
      getAckParam, hack]

theorem C5_witness :
    ("k" : String) ≠ "" ∧
    findOneConsignment (St.mk [Consignment.mk "f" "k" none none none] [] [] [] []).consignments "k" =
      some (Consignment.mk "f" "k" none none none) ∧
    ((ackPost (mkAckParams "k" true) (St.mk [Consignment.mk "f" "k" none none none] [] [] [] [])).1 = .ok true ∧
      findOneConsignment
        (ackPost (mkAckParams "k" true) (St.mk [Consignment.mk "f" "k" none none none] [] [] [] [])).2.consignments "k" =
        some (Consignment.mk "f" "k" (some true) none none)) :=
  ⟨by decide, by decide,
    (C5_ackPost_state_machine (St.mk [Consignment.mk "f" "k" none none none] [] [] [] [])
      "k" (Consignment.mk "f" "k" none none none) true (by decide) (by decide)).1 rfl⟩

lemma ackPost_state (params : Option JValue) (s : St) :
    (ackPost params s).2 = s ∨
    ∃ k2 c2 v, findOneConsignment s.consignments k2 = some c2 ∧ c2.ack = none ∧
      (ackPost params s).2 =
        { s with consignments := updateFirst s.consignments k2 (setAckField v) } := by
  unfold ackPost getConsignment
  cases hb : getBlindedUTXOParam params with
  | error e => simp
  | ok k2 =>
    cases hf : findOneConsignment s.consignments k2 with
    | none => simp [hf]
    | some c2 =>
      cases ha : getAckParam params with
      | error e => simp [hf, ha]
      | ok v =>
        cases hc : c2.ack with
        | some prev => by_cases hpv : prev = v <;> simp [hf, ha, hc, hpv]
        | none =>
          right
          refine ⟨k2, c2, v, hf, hc, ?_⟩
          simp [hf, ha, hc, blindedutxo_of_findOne hf]
          rfl

lemma restPostAck_state (b : Option String) (s : St) :
    (restPostAck b s).2 = s ∨
    ∃ k2 c2, findOneConsignment s.consignments k2 = some c2 ∧ c2.responded.getD false = false ∧
      (restPostAck b s).2 =
        { s with consignments := updateFirst s.consignments k2 (fun r => { r with ack := some true, nack := some false, responded := some true }) } := by
  unfold restPostAck
  by_cases hsf : strFalsy b = true
  · simp [hsf]
  · simp only [hsf]
    cases hf : findOneConsignment s.consignments (b.getD "") with
    | none => simp
    | some c2 =>
      by_cases hr : c2.responded.getD false = true
      · simp [hr]
      · simp only [hr]
        right
        refine ⟨b.getD "", c2, hf, by simpa using hr, ?_⟩
        simp [Bool.not_eq_true] at hr
        simp [hr]

lemma restPostNack_state (b : Option String) (s : St) :
    (restPostNack b s).2 = s ∨
    ∃ k2 c2, findOneConsignment s.consignments k2 = some c2 ∧ c2.responded.getD false = false ∧
      (restPostNack b s).2 =
        { s with consignments := updateFirst s.consignments k2 (fun r => { r with nack := some true, ack := some false, responded := some true }) } := by
  unfold restPostNack
  by_cases hsf : strFalsy b = true
  · simp [hsf]
  · simp only [hsf]
    cases hf : findOneConsignment s.consignments (b.getD "") with
    | none => simp
    | some c2 =>
      by_cases hr : c2.responded.getD false = true
      · simp [hr]
      · simp only [hr]
        right
        refine ⟨b.getD "", c2, hf, by simpa using hr, ?_⟩
        simp [Bool.not_eq_true] at hr
        simp [hr]

lemma decided_record_stable_under_ackPost (s : St) (k : String) (c : Consignment) (a : Bool)
    (hfind : findOneConsignment s.consignments k = some c) (hack : c.ack = some a)
    (params : Option JValue) :
    findOneConsignment (ackPost params s).2.consignments k = some c := by
  rcases ackPost_state params s with h | ⟨k2, c2, v, hf2, hc2, h⟩
  · rw [h, hfind]
  · rw [h]
    by_cases hkk : k = k2
    · subst hkk
      rw [hfind] at hf2
      cases hf2
      rw [hack] at hc2
      cases hc2
    · have := findOneConsignment_updateFirst_ne s.consignments k2 k (setAckField v)
        (fun r => rfl) hkk
      simpa [this] using hfind

/-- C1 (amended): once `ack` is decided, the JSON-RPC setter `ack.post`
never changes the record, and a record whose legacy `responded` flag is set
(as the REST routes leave it) is never changed by any ack-touching
operation; the amendment is that a record decided only through `ack.post`
carries no `responded` flag and stays exposed to the REST routes. -/
theorem C1_ack_no_flip_amended (s : St) (k : String) (c : Consignment) (a : Bool)
    (hfind : findOneConsignment s.consignments k = some c) (hack : c.ack = some a) :
    (∀ params, findOneConsignment (ackPost params s).2.consignments k = some c) ∧
    (c.responded = some true →
      ∀ op : AckOp, findOneConsignment (op.step s).consignments k = some c) := by
  constructor
  · exact fun params => decided_record_stable_under_ackPost s k c a hfind hack params
  · intro hresp op
    cases op with
    | rpcAckPost params => exact decided_record_stable_under_ackPost s k c a hfind hack params
    | restAck b =>
      show findOneConsignment (restPostAck b s).2.consignments k = some c
      rcases restPostAck_state b s with h | ⟨k2, c2, hf2, hr2, h⟩
      · rw [h, hfind]
      · rw [h]
        by_cases hkk : k = k2
        · subst hkk
          rw [hfind] at hf2
          cases hf2
          rw [hresp] at hr2
          simp at hr2
        · have := findOneConsignment_updateFirst_ne s.consignments k2 k
            (fun r => { r with ack := some true, nack := some false, responded := some true })
            (fun r => rfl) hkk
          simpa [this] using hfind
    | restNack b =>
      show findOneConsignment (restPostNack b s).2.consignments k = some c
      rcases restPostNack_state b s with h | ⟨k2, c2, hf2, hr2, h⟩
      · rw [h, hfind]
      · rw [h]
        by_cases hkk : k = k2
        · subst hkk
          rw [hfind] at hf2
          cases hf2
          rw [hresp] at hr2
          simp at hr2
        · have := findOneConsignment_updateFirst_ne s.consignments k2 k
            (fun r => { r with nack := some true, ack := some false, responded := some true })
            (fun r => rfl) hkk
          simpa [this] using hfind

theorem C1_witness :
    findOneConsignment (St.mk [Consignment.mk "f" "k" (some false) (some true) (some true)] [] [] [] []).consignments "k" =
      some (Consignment.mk "f" "k" (some false) (some true) (some true)) ∧
    (Consignment.mk "f" "k" (some false) (some true) (some true)).ack = some false ∧
    ((∀ params, findOneConsignment (ackPost params (St.mk [Consignment.mk "f" "k" (some false) (some true) (some true)] [] [] [] [])).2.consignments "k" =
        some (Consignment.mk "f" "k" (some false) (some true) (some true))) ∧
      ((Consignment.mk "f" "k" (some false) (some true) (some true)).responded = some true →
        ∀ op : AckOp, findOneConsignment (op.step (St.mk [Consignment.mk "f" "k" (some false) (some true) (some true)] [] [] [] [])).consignments "k" =
          some (Consignment.mk "f" "k" (some false) (some true) (some true)))) :=
  ⟨by decide, by decide,
    C1_ack_no_flip_amended (St.mk [Consignment.mk "f" "k" (some false) (some true) (some true)] [] [] [] [])
      "k" (Consignment.mk "f" "k" (some false) (some true) (some true)) false (by decide) (by decide)⟩

/-- C1 fails as stated: an `ack` recorded as `false` by `ack.post` is
flipped to `true` by a later REST `POST /ack`, because that route guards on
the legacy `responded` flag, which `ack.post` does not set. -/
theorem C1_counterexample :
    (findOneConsignment ((ackPost (mkAckParams "k" false) (St.mk [Consignment.mk "f" "k" none none none] [] [] [] [])).2).consignments "k").map Consignment.ack =
      some (some false) ∧
    (findOneConsignment ((restPostAck (some "k") (ackPost (mkAckParams "k" false) (St.mk [Consignment.mk "f" "k" none none none] [] [] [] [])).2).2).consignments "k").map Consignment.ack =
      some (some true) := by
  decide

lemma countConsignments_zero {l : List Consignment} {k : String}
    (h : findOneConsignment l k = none) : countConsignments l k = 0 := by
  simp [countConsignments, filter_nil_of_find?_none _ _ h]

lemma countMedia_zero {l : List Media} {k : String}
    (h : findOneMedia l k = none) : countMedia l k = 0 := by
  simp [countMedia, filter_nil_of_find?_none _ _ h]

lemma existsSync_unlinkSync (d : Dir) (n : String) : existsSync (unlinkSync d n) n = false := by
  simp [existsSync, unlinkSync, List.any_eq_true, List.mem_filter]

lemma rpcConsignmentPost_fresh (s : St) (k t : String) (bytes : List Nat)
    (hk : k ≠ "") (hc : findOneConsignment s.consignments k = none) :
    rpcConsignmentPostReq (mkBUParams k) (some bytes) t s =
      (.ok true,
        { s with
          tempDir := unlinkSync ((t, bytes) :: s.tempDir) t,
          consignmentDir := writeMoved s.consignmentDir (genHashFromFile bytes) bytes,
          consignments := s.consignments ++ [{ filename := genHashFromFile bytes, blindedutxo := k }] }) := by
  simp [rpcConsignmentPostReq, stageFile, consignmentPost, consignmentPostBody,
    getBlindedUTXOParam, mkBUParams, dictLookup, List.find?, JValue.truthy, JValue.isStr,
    JValue.getStr, readFile, hk, hc]

lemma rpcConsignmentPost_dup (s : St) (k t : String) (bytes : List Nat) (c : Consignment)
    (hk : k ≠ "") (hc : findOneConsignment s.consignments k = some c)
    (hh : c.filename = genHashFromFile bytes) :
    rpcConsignmentPostReq (mkBUParams k) (some bytes) t s =
      (.ok false, { s with tempDir := unlinkSync ((t, bytes) :: s.tempDir) t }) := by
  simp [rpcConsignmentPostReq, stageFile, consignmentPost, consignmentPostBody,
    getBlindedUTXOParam, mkBUParams, dictLookup, List.find?, JValue.truthy, JValue.isStr,
    JValue.getStr, readFile, hk, hc, hh]

lemma rpcConsignmentPost_conflict (s : St) (k t : String) (bytes : List Nat) (c : Consignment)
    (hk : k ≠ "") (hc : findOneConsignment s.consignments k = some c)
    (hh : ¬ c.filename = genHashFromFile bytes) :
    rpcConsignmentPostReq (mkBUParams k) (some bytes) t s =
      (.error .cannotChangeUploadedFile,
        { s with tempDir := unlinkSync ((t, bytes) :: s.tempDir) t }) := by
  simp [rpcConsignmentPostReq, stageFile, consignmentPost, consignmentPostBody,
    getBlindedUTXOParam, mkBUParams, dictLookup, List.find?, JValue.truthy, JValue.isStr,
    JValue.getStr, readFile, existsSync, hk, hc, hh]

lemma rpcMediaPost_fresh (s : St) (k t : String) (bytes : List Nat)
    (hk : k ≠ "") (hm : findOneMedia s.media k = none) :
    rpcMediaPostReq (mkAIDParams k) (some bytes) t s =
      (.ok true,
        { s with
          tempDir := unlinkSync ((t, bytes) :: s.tempDir) t,
          mediaDir := writeMoved s.mediaDir (genHashFromFile bytes) bytes,
          media := s.media ++ [{ filename := genHashFromFile bytes, attachment_id := k }] }) := by
  simp [rpcMediaPostReq, stageFile, mediaPost, mediaPostBody,
    getAttachmentIDParam, mkAIDParams, dictLookup, List.find?, JValue.truthy, JValue.isStr,
    JValue.getStr, readFile, hk, hm]

lemma rpcMediaPost_dup (s : St) (k t : String) (bytes : List Nat) (m : Media)
    (hk : k ≠ "") (hm : findOneMedia s.media k = some m)
    (hh : m.filename = genHashFromFile bytes) :
    rpcMediaPostReq (mkAIDParams k) (some bytes) t s =
      (.ok false, { s with tempDir := unlinkSync ((t, bytes) :: s.tempDir) t }) := by
  simp [rpcMediaPostReq, stageFile, mediaPost, mediaPostBody,
    getAttachmentIDParam, mkAIDParams, dictLookup, List.find?, JValue.truthy, JValue.isStr,
    JValue.getStr, readFile, hk, hm, hh]

lemma rpcMediaPost_conflict (s : St) (k t : String) (bytes : List Nat) (m : Media)
    (hk : k ≠ "") (hm : findOneMedia s.media k = some m)
    (hh : ¬ m.filename = genHashFromFile bytes) :
    rpcMediaPostReq (mkAIDParams k) (some bytes) t s =
      (.error .cannotChangeUploadedFile,
        { s with tempDir := unlinkSync ((t, bytes) :: s.tempDir) t }) := by
  simp [rpcMediaPostReq, stageFile, mediaPost, mediaPostBody,
    getAttachmentIDParam, mkAIDParams, dictLookup, List.find?, JValue.truthy, JValue.isStr,
    JValue.getStr, readFile, existsSync, hk, hm, hh]

lemma restPostConsignment_fresh (s : St) (k t : String) (bytes : List Nat)
    (hk : k ≠ "") (hc : findOneConsignment s.consignments k = none) :
    restPostConsignmentReq (some k) (some bytes) t s =
      (⟨200, [("success", .vbool true)]⟩,
        { s with
          tempDir := unlinkSync ((t, bytes) :: s.tempDir) t,
          consignmentDir := writeMoved s.consignmentDir (genHashFromFile bytes) bytes,
          consignments := s.consignments ++ [{ filename := genHashFromFile bytes, blindedutxo := k }] }) := by
  simp [restPostConsignmentReq, stageFile, restPostConsignment, strFalsy, readFile,
    List.find?, hk, hc, existsSync_unlinkSync]

lemma restPostConsignment_dup (s : St) (k t : String) (bytes : List Nat) (c : Consignment)
    (hk : k ≠ "") (hc : findOneConsignment s.consignments k = some c)
    (hh : c.filename = genHashFromFile bytes) :
    restPostConsignmentReq (some k) (some bytes) t s =
      (⟨200, [("success", .vbool true)]⟩, { s with tempDir := (t, bytes) :: s.tempDir }) := by
  simp [restPostConsignmentReq, stageFile, restPostConsignment, strFalsy, readFile,
    List.find?, hk, hc, hh]

lemma restPostConsignment_conflict (s : St) (k t : String) (bytes : List Nat) (c : Consignment)
    (hk : k ≠ "") (hc : findOneConsignment s.consignments k = some c)
    (hh : ¬ c.filename = genHashFromFile bytes) :
    restPostConsignmentReq (some k) (some bytes) t s =
      (⟨403, [("success", .vbool false), ("error", .vstr "Cannot change uploaded file!")]⟩,
        { s with tempDir := (t, bytes) :: s.tempDir }) := by
  simp [restPostConsignmentReq, stageFile, restPostConsignment, strFalsy, readFile,
    List.find?, hk, hc, hh]

/-- C3: uploading the same bytes twice under a previously-unused key
reports "created" on the first call (`true` / HTTP 200 success) and
"no-op" on the second (`false` / HTTP 200 success, not an error), and
afterwards exactly one record and one stored blob exist for that key —
on JSON-RPC `consignment.post`, JSON-RPC `media.post` and the REST
`POST /consignment` route alike. -/
theorem C3_upload_dedup_idempotent (s : St) (k t1 t2 : String) (bytes : List Nat)
    (hk : k ≠ "") (hc : findOneConsignment s.consignments k = none)
    (hm : findOneMedia s.media k = none) :
    ((rpcConsignmentPostReq (mkBUParams k) (some bytes) t1 s).1 = .ok true ∧
     (rpcConsignmentPostReq (mkBUParams k) (some bytes) t2
        (rpcConsignmentPostReq (mkBUParams k) (some bytes) t1 s).2).1 = .ok false ∧
     countConsignments (rpcConsignmentPostReq (mkBUParams k) (some bytes) t2
        (rpcConsignmentPostReq (mkBUParams k) (some bytes) t1 s).2).2.consignments k = 1 ∧
     countFiles (rpcConsignmentPostReq (mkBUParams k) (some bytes) t2
        (rpcConsignmentPostReq (mkBUParams k) (some bytes) t1 s).2).2.consignmentDir
        (genHashFromFile bytes) = 1) ∧
    ((rpcMediaPostReq (mkAIDParams k) (some bytes) t1 s).1 = .ok true ∧
     (rpcMediaPostReq (mkAIDParams k) (some bytes) t2
        (rpcMediaPostReq (mkAIDParams k) (some bytes) t1 s).2).1 = .ok false ∧
     countMedia (rpcMediaPostReq (mkAIDParams k) (some bytes) t2
        (rpcMediaPostReq (mkAIDParams k) (some bytes) t1 s).2).2.media k = 1 ∧
     countFiles (rpcMediaPostReq (mkAIDParams k) (some bytes) t2
        (rpcMediaPostReq (mkAIDParams k) (some bytes) t1 s).2).2.mediaDir
        (genHashFromFile bytes) = 1) ∧
    ((restPostConsignmentReq (some k) (some bytes) t1 s).1 =
        RestResp.mk 200 [("success", .vbool true)] ∧
     (restPostConsignmentReq (some k) (some bytes) t2
        (restPostConsignmentReq (some k) (some bytes) t1 s).2).1 =
        RestResp.mk 200 [("success", .vbool true)] ∧
     countConsignments (restPostConsignmentReq (some k) (some bytes) t2
        (restPostConsignmentReq (some k) (some bytes) t1 s).2).2.consignments k = 1 ∧
     countFiles (restPostConsignmentReq (some k) (some bytes) t2
        (restPostConsignmentReq (some k) (some bytes) t1 s).2).2.consignmentDir
        (genHashFromFile bytes) = 1) := by
  refine ⟨?_, ?_, ?_⟩
  · have h1 := rpcConsignmentPost_fresh s k t1 bytes hk hc
    have hfind1 : findOneConsignment
        (rpcConsignmentPostReq (mkBUParams k) (some bytes) t1 s).2.consignments k =
        some { filename := genHashFromFile bytes, blindedutxo := k } := by
      rw [h1]
      exact findOneConsignment_append_none _ _ _ hc (by simp)
    have h2 := rpcConsignmentPost_dup (rpcConsignmentPostReq (mkBUParams k) (some bytes) t1 s).2
      k t2 bytes { filename := genHashFromFile bytes, blindedutxo := k } hk hfind1 rfl
    refine ⟨by rw [h1], by rw [h2], ?_, ?_⟩
    · have hcs : (rpcConsignmentPostReq (mkBUParams k) (some bytes) t2
          (rpcConsignmentPostReq (mkBUParams k) (some bytes) t1 s).2).2.consignments =
          s.consignments ++ [{ filename := genHashFromFile bytes, blindedutxo := k }] := by
        rw [h2, h1]
      rw [hcs, countConsignments_append, countConsignments_zero hc]
      simp
    · have hcd : (rpcConsignmentPostReq (mkBUParams k) (some bytes) t2
          (rpcConsignmentPostReq (mkBUParams k) (some bytes) t1 s).2).2.consignmentDir =
          writeMoved s.consignmentDir (genHashFromFile bytes) bytes := by
        rw [h2, h1]
      rw [hcd, countFiles_writeMoved]
  · have h1 := rpcMediaPost_fresh s k t1 bytes hk hm
    have hfind1 : findOneMedia
        (rpcMediaPostReq (mkAIDParams k) (some bytes) t1 s).2.media k =
        some { filename := genHashFromFile bytes, attachment_id := k } := by
      rw [h1]
      exact findOneMedia_append_none _ _ _ hm (by simp)
    have h2 := rpcMediaPost_dup (rpcMediaPostReq (mkAIDParams k) (some bytes) t1 s).2
      k t2 bytes { filename := genHashFromFile bytes, attachment_id := k } hk hfind1 rfl
    refine ⟨by rw [h1], by rw [h2], ?_, ?_⟩
    · have hcs : (rpcMediaPostReq (mkAIDParams k) (some bytes) t2
          (rpcMediaPostReq (mkAIDParams k) (some bytes) t1 s).2).2.media =
          s.media ++ [{ filename := genHashFromFile bytes, attachment_id := k }] := by
        rw [h2, h1]
      rw [hcs, countMedia_append, countMedia_zero hm]
      simp
    · have hcd : (rpcMediaPostReq (mkAIDParams k) (some bytes) t2
          (rpcMediaPostReq (mkAIDParams k) (some bytes) t1 s).2).2.mediaDir =
          writeMoved s.mediaDir (genHashFromFile bytes) bytes := by
        rw [h2, h1]
      rw [hcd, countFiles_writeMoved]
  · have h1 := restPostConsignment_fresh s k t1 bytes hk hc
    have hfind1 : findOneConsignment
        (restPostConsignmentReq (some k) (some bytes) t1 s).2.consignments k =
        some { filename := genHashFromFile bytes, blindedutxo := k } := by
      rw [h1]
      exact findOneConsignment_append_none _ _ _ hc (by simp)
    have h2 := restPostConsignment_dup (restPostConsignmentReq (some k) (some bytes) t1 s).2
      k t2 bytes { filename := genHashFromFile bytes, blindedutxo := k } hk hfind1 rfl
    refine ⟨by rw [h1], by rw [h2], ?_, ?_⟩
    · have hcs : (restPostConsignmentReq (some k) (some bytes) t2
          (restPostConsignmentReq (some k) (some bytes) t1 s).2).2.consignments =
          s.consignments ++ [{ filename := genHashFromFile bytes, blindedutxo := k }] := by
        rw [h2, h1]
      rw [hcs, countConsignments_append, countConsignments_zero hc]
      simp
    · have hcd : (restPostConsignmentReq (some k) (some bytes) t2
          (restPostConsignmentReq (some k) (some bytes) t1 s).2).2.consignmentDir =
          writeMoved s.consignmentDir (genHashFromFile bytes) bytes := by
        rw [h2, h1]
      rw [hcd, countFiles_writeMoved]

theorem C3_witness :
    ("k" : String) ≠ "" ∧
    findOneConsignment (St.mk [] [] [] [] [] : St).consignments "k" = none ∧
    findOneMedia (St.mk [] [] [] [] [] : St).media "k" = none ∧
    ((rpcConsignmentPostReq (mkBUParams "k") (some [7]) "t" (St.mk [] [] [] [] [])).1 = .ok true ∧
     (rpcConsignmentPostReq (mkBUParams "k") (some [7]) "t"
        (rpcConsignmentPostReq (mkBUParams "k") (some [7]) "t" (St.mk [] [] [] [] [])).2).1 = .ok false ∧
     countConsignments (rpcConsignmentPostReq (mkBUParams "k") (some [7]) "t"
        (rpcConsignmentPostReq (mkBUParams "k") (some [7]) "t" (St.mk [] [] [] [] [])).2).2.consignments "k" = 1 ∧
     countFiles (rpcConsignmentPostReq (mkBUParams "k") (some [7]) "t"
        (rpcConsignmentPostReq (mkBUParams "k") (some [7]) "t" (St.mk [] [] [] [] [])).2).2.consignmentDir
        (genHashFromFile [7]) = 1) ∧
    ((rpcMediaPostReq (mkAIDParams "k") (some [7]) "t" (St.mk [] [] [] [] [])).1 = .ok true ∧
     (rpcMediaPostReq (mkAIDParams "k") (some [7]) "t"
        (rpcMediaPostReq (mkAIDParams "k") (some [7]) "t" (St.mk [] [] [] [] [])).2).1 = .ok false ∧
     countMedia (rpcMediaPostReq (mkAIDParams "k") (some [7]) "t"
        (rpcMediaPostReq (mkAIDParams "k") (some [7]) "t" (St.mk [] [] [] [] [])).2).2.media "k" = 1 ∧
     countFiles (rpcMediaPostReq (mkAIDParams "k") (some [7]) "t"
        (rpcMediaPostReq (mkAIDParams "k") (some [7]) "t" (St.mk [] [] [] [] [])).2).2.mediaDir
        (genHashFromFile [7]) = 1) ∧
    ((restPostConsignmentReq (some "k") (some [7]) "t" (St.mk [] [] [] [] [])).1 =
        RestResp.mk 200 [("success", .vbool true)] ∧
     (restPostConsignmentReq (some "k") (some [7]) "t"
        (restPostConsignmentReq (some "k") (some [7]) "t" (St.mk [] [] [] [] [])).2).1 =
        RestResp.mk 200 [("success", .vbool true)] ∧
     countConsignments (restPostConsignmentReq (some "k") (some [7]) "t"
        (restPostConsignmentReq (some "k") (some [7]) "t" (St.mk [] [] [] [] [])).2).2.consignments "k" = 1 ∧
     countFiles (restPostConsignmentReq (some "k") (some [7]) "t"
        (restPostConsignmentReq (some "k") (some [7]) "t" (St.mk [] [] [] [] [])).2).2.consignmentDir
        (genHashFromFile [7]) = 1) :=
  ⟨by decide, by decide, by decide,
    C3_upload_dedup_idempotent (St.mk [] [] [] [] []) "k" "t" "t" [7]
      (by decide) (by decide) (by decide)⟩

/-- C4: uploading bytes that differ from the content already stored under a
used key fails with the upload conflict (`CannotChangeUploadedFile` on
JSON-RPC, HTTP 403 on REST `POST /consignment`), and the existing record
and its stored blob are unchanged by the failed call. -/
theorem C4_upload_conflict (s : St) (k t : String) (c : Consignment)
    (oldBytes newBytes : List Nat)
    (hk : k ≠ "") (hfind : findOneConsignment s.consignments k = some c)
    (hstored : readFile s.consignmentDir c.filename = some oldBytes)
    (hhash : c.filename = genHashFromFile oldBytes)
    (hdiff : ¬ newBytes = oldBytes)
    (hw1 : ∀ x ∈ oldBytes, x < 256) (hw2 : ∀ x ∈ newBytes, x < 256) :
    ((rpcConsignmentPostReq (mkBUParams k) (some newBytes) t s).1 =
        .error .cannotChangeUploadedFile ∧
     findOneConsignment
        (rpcConsignmentPostReq (mkBUParams k) (some newBytes) t s).2.consignments k = some c ∧
     readFile
        (rpcConsignmentPostReq (mkBUParams k) (some newBytes) t s).2.consignmentDir c.filename =
        some oldBytes) ∧
    ((restPostConsignmentReq (some k) (some newBytes) t s).1 =
        RestResp.mk 403 [("success", .vbool false), ("error", .vstr "Cannot change uploaded file!")] ∧
     findOneConsignment
        (restPostConsignmentReq (some k) (some newBytes) t s).2.consignments k = some c ∧
     readFile
        (restPostConsignmentReq (some k) (some newBytes) t s).2.consignmentDir c.filename =
        some oldBytes) := by
  have hne : ¬ c.filename = genHashFromFile newBytes := by
    intro h
    exact hdiff (genHashFromFile_injOn hw2 hw1 (by rw [← h, hhash]))
  have h1 := rpcConsignmentPost_conflict s k t newBytes c hk hfind hne
  have h2 := restPostConsignment_conflict s k t newBytes c hk hfind hne
  refine ⟨⟨by rw [h1], ?_, ?_⟩, ⟨by rw [h2], ?_, ?_⟩⟩
  · rw [h1]; exact hfind
  · rw [h1]; exact hstored
  · rw [h2]; exact hfind
  · rw [h2]; exact hstored

theorem C4_witness :
    ("k" : String) ≠ "" ∧
    findOneConsignment (St.mk [Consignment.mk (genHashFromFile [1]) "k" none none none] [] [] [(genHashFromFile [1], [1])] []).consignments "k" =
      some (Consignment.mk (genHashFromFile [1]) "k" none none none) ∧
    readFile (St.mk [Consignment.mk (genHashFromFile [1]) "k" none none none] [] [] [(genHashFromFile [1], [1])] []).consignmentDir
      (Consignment.mk (genHashFromFile [1]) "k" none none none).filename = some [1] ∧
    (Consignment.mk (genHashFromFile [1]) "k" none none none).filename = genHashFromFile [1] ∧
    ¬ ([2] : List Nat) = [1] ∧
    (∀ x ∈ ([1] : List Nat), x < 256) ∧
    (∀ x ∈ ([2] : List Nat), x < 256) ∧
    (((rpcConsignmentPostReq (mkBUParams "k") (some [2]) "t" (St.mk [Consignment.mk (genHashFromFile [1]) "k" none none none] [] [] [(genHashFromFile [1], [1])] [])).1 =
          .error .cannotChangeUploadedFile ∧
      findOneConsignment
        (rpcConsignmentPostReq (mkBUParams "k") (some [2]) "t" (St.mk [Consignment.mk (genHashFromFile [1]) "k" none none none] [] [] [(genHashFromFile [1], [1])] [])).2.consignments "k" =
        some (Consignment.mk (genHashFromFile [1]) "k" none none none) ∧
      readFile
        (rpcConsignmentPostReq (mkBUParams "k") (some [2]) "t" (St.mk [Consignment.mk (genHashFromFile [1]) "k" none none none] [] [] [(genHashFromFile [1], [1])] [])).2.consignmentDir
        (Consignment.mk (genHashFromFile [1]) "k" none none none).filename = some [1]) ∧
     ((restPostConsignmentReq (some "k") (some [2]) "t" (St.mk [Consignment.mk (genHashFromFile [1]) "k" none none none] [] [] [(genHashFromFile [1], [1])] [])).1 =
          RestResp.mk 403 [("success", .vbool false), ("error", .vstr "Cannot change uploaded file!")] ∧
      findOneConsignment
        (restPostConsignmentReq (some "k") (some [2]) "t" (St.mk [Consignment.mk (genHashFromFile [1]) "k" none none none] [] [] [(genHashFromFile [1], [1])] [])).2.consignments "k" =
        some (Consignment.mk (genHashFromFile [1]) "k" none none none) ∧
      readFile
        (restPostConsignmentReq (some "k") (some [2]) "t" (St.mk [Consignment.mk (genHashFromFile [1]) "k" none none none] [] [] [(genHashFromFile [1], [1])] [])).2.consignmentDir
        (Consignment.mk (genHashFromFile [1]) "k" none none none).filename = some [1])) :=
  ⟨by decide, by decide, by decide, by decide, by decide, by decide, by decide,
    C4_upload_conflict (St.mk [Consignment.mk (genHashFromFile [1]) "k" none none none] [] [] [(genHashFromFile [1], [1])] [])
      "k" "t" (Consignment.mk (genHashFromFile [1]) "k" none none none) [1] [2]
      (by decide) (by decide) (by decide) (by decide) (by decide) (by decide) (by decide)⟩

lemma rpcConsignmentPost_tempDir (params : Option JValue) (bytes : List Nat)
    (t : String) (s : St) :
    (rpcConsignmentPostReq params (some bytes) t s).2.tempDir =
      unlinkSync ((t, bytes) :: s.tempDir) t := by
  unfold rpcConsignmentPostReq stageFile consignmentPost consignmentPostBody
  cases hb : getBlindedUTXOParam params with
  | error e => simp [hb, existsSync, readFile, List.find?]
  | ok k2 =>
    cases hf : findOneConsignment s.consignments k2 with
    | none => simp [hb, hf, readFile, List.find?]
    | some prev =>
      by_cases hh : prev.filename = genHashFromFile bytes
      · simp [hb, hf, hh, readFile, List.find?]
      · simp [hb, hf, hh, readFile, List.find?, existsSync]

lemma rpcMediaPost_tempDir (params : Option JValue) (bytes : List Nat)
    (t : String) (s : St) :
    (rpcMediaPostReq params (some bytes) t s).2.tempDir =
      unlinkSync ((t, bytes) :: s.tempDir) t := by
  unfold rpcMediaPostReq stageFile mediaPost mediaPostBody
  cases hb : getAttachmentIDParam params with
  | error e => simp [hb, existsSync, readFile, List.find?]
  | ok k2 =>
    cases hf : findOneMedia s.media k2 with
    | none => simp [hb, hf, readFile, List.find?]
    | some prev =>
      by_cases hh : prev.filename = genHashFromFile bytes
      · simp [hb, hf, hh, readFile, List.find?]
      · simp [hb, hf, hh, readFile, List.find?, existsSync]

/-- C7 (amended): on the JSON-RPC surface (`consignment.post`,
`media.post`) every outcome — success, duplicate no-op, or any failure
reached after staging — removes the staged temp file before returning,
for arbitrary parameters; the amendment is that the REST upload routes do
not share this property (their duplicate and conflict paths leave the
staged file in the temp directory, see the counterexample). -/
theorem C7_rpc_temp_cleanup_amended (params : Option JValue) (bytes : List Nat)
    (t : String) (s : St) :
    existsSync (rpcConsignmentPostReq params (some bytes) t s).2.tempDir t = false ∧
    existsSync (rpcMediaPostReq params (some bytes) t s).2.tempDir t = false := by
  constructor
  · rw [rpcConsignmentPost_tempDir]
    exact existsSync_unlinkSync _ _
  · rw [rpcMediaPost_tempDir]
    exact existsSync_unlinkSync _ _

/-- C7 fails as stated on the REST surface: a REST `POST /consignment`
conflicting with stored content answers 403 but leaves the staged temp
file in the temp directory. -/
theorem C7_counterexample :
    (restPostConsignmentReq (some "k") (some [2]) "t"
        (St.mk [Consignment.mk (genHashFromFile [1]) "k" none none none] [] []
          [(genHashFromFile [1], [1])] [])).1.status = 403 ∧
    existsSync (restPostConsignmentReq (some "k") (some [2]) "t"
        (St.mk [Consignment.mk (genHashFromFile [1]) "k" none none none] [] []
          [(genHashFromFile [1], [1])] [])).2.tempDir "t" = true := by
  decide

lemma readFile_writeMoved (d : Dir) (n : String) (b : List Nat) :
    readFile (writeMoved d n b) n = some b := by
  simp [readFile, writeMoved, List.find?]

lemma findOneConsignment_append_ne (l : List Consignment) (k2 : String) (c : Consignment)
    (h : findOneConsignment l k2 = none) (hc : (c.blindedutxo == k2) = false) :
    findOneConsignment (l ++ [c]) k2 = none := by
  simp only [findOneConsignment] at *
  rw [List.find?_append, h]
  simp [List.find?, hc]

lemma findOneMedia_append_ne (l : List Media) (k2 : String) (m : Media)
    (h : findOneMedia l k2 = none) (hm : (m.attachment_id == k2) = false) :
    findOneMedia (l ++ [m]) k2 = none := by
  simp only [findOneMedia] at *
  rw [List.find?_append, h]
  simp [List.find?, hm]

/-- C9: after a successful upload of payload `bytes` under a fresh key `k`
(consignment or media), a get with key `k` returns the base64 transport
encoding of exactly `bytes` (decoding recovers `bytes`), and a get with a
key that was never uploaded fails with the matching not-found error. -/
theorem C9_round_trip (s : St) (k k2 t : String) (bytes : List Nat)
    (hk : k ≠ "") (hk2 : k2 ≠ "") (hne : ¬ k = k2)
    (hc : findOneConsignment s.consignments k = none)
    (hc2 : findOneConsignment s.consignments k2 = none)
    (hm : findOneMedia s.media k = none)
    (hm2 : findOneMedia s.media k2 = none)
    (hw : ∀ x ∈ bytes, x < 256) :
    (consignmentGet (mkBUParams k) (rpcConsignmentPostReq (mkBUParams k) (some bytes) t s).2 =
        .ok (base64Encode bytes) ∧
     consignmentGet (mkBUParams k2) (rpcConsignmentPostReq (mkBUParams k) (some bytes) t s).2 =
        .error .notFoundConsignment) ∧
    (mediaGet (mkAIDParams k) (rpcMediaPostReq (mkAIDParams k) (some bytes) t s).2 =
        .ok (base64Encode bytes) ∧
     mediaGet (mkAIDParams k2) (rpcMediaPostReq (mkAIDParams k) (some bytes) t s).2 =
        .error .notFoundMedia) ∧
    base64Decode (base64Encode bytes) = some bytes := by
  have h1 := rpcConsignmentPost_fresh s k t bytes hk hc
  have hmed := rpcMediaPost_fresh s k t bytes hk hm
  have hfc : findOneConsignment
      (s.consignments ++ [{ filename := genHashFromFile bytes, blindedutxo := k }]) k =
      some { filename := genHashFromFile bytes, blindedutxo := k } :=
    findOneConsignment_append_none _ _ _ hc (by simp)
  have hfc2 : findOneConsignment
      (s.consignments ++ [{ filename := genHashFromFile bytes, blindedutxo := k }]) k2 = none :=
    findOneConsignment_append_ne _ _ _ hc2 (by simp [hne])
  have hfm : findOneMedia
      (s.media ++ [{ filename := genHashFromFile bytes, attachment_id := k }]) k =
      some { filename := genHashFromFile bytes, attachment_id := k } :=
    findOneMedia_append_none _ _ _ hm (by simp)
  have hfm2 : findOneMedia
      (s.media ++ [{ filename := genHashFromFile bytes, attachment_id := k }]) k2 = none :=
    findOneMedia_append_ne _ _ _ hm2 (by simp [hne])
  refine ⟨⟨?_, ?_⟩, ⟨?_, ?_⟩, ?_⟩
  · rw [h1]
    simp [consignmentGet, getConsignment, getBlindedUTXOParam, mkBUParams, dictLookup,
      List.find?, JValue.truthy, JValue.isStr, JValue.getStr, hk, hfc, readFile_writeMoved]
  · rw [h1]
    simp [consignmentGet, getConsignment, getBlindedUTXOParam, mkBUParams, dictLookup,
      List.find?, JValue.truthy, JValue.isStr, JValue.getStr, hk2, hfc2]
  · rw [hmed]
    simp [mediaGet, getAttachmentIDParam, mkAIDParams, dictLookup,
      List.find?, JValue.truthy, JValue.isStr, JValue.getStr, hk, hfm, readFile_writeMoved]
  · rw [hmed]
    simp [mediaGet, getAttachmentIDParam, mkAIDParams, dictLookup,
      List.find?, JValue.truthy, JValue.isStr, JValue.getStr, hk2, hfm2]
  · exact base64DecodeList_encodeList bytes hw

theorem C9_witness :
    ("k1" : String) ≠ "" ∧ ("k2" : String) ≠ "" ∧ ¬ ("k1" : String) = "k2" ∧
    findOneConsignment (St.mk [] [] [] [] [] : St).consignments "k1" = none ∧
    findOneConsignment (St.mk [] [] [] [] [] : St).consignments "k2" = none ∧
    findOneMedia (St.mk [] [] [] [] [] : St).media "k1" = none ∧
    findOneMedia (St.mk [] [] [] [] [] : St).media "k2" = none ∧
    (∀ x ∈ ([104, 101, 108, 108, 111] : List Nat), x < 256) ∧
    ((consignmentGet (mkBUParams "k1")
        (rpcConsignmentPostReq (mkBUParams "k1") (some [104, 101, 108, 108, 111]) "t" (St.mk [] [] [] [] [])).2 =
        .ok (base64Encode [104, 101, 108, 108, 111]) ∧
      consignmentGet (mkBUParams "k2")
        (rpcConsignmentPostReq (mkBUParams "k1") (some [104, 101, 108, 108, 111]) "t" (St.mk [] [] [] [] [])).2 =
        .error .notFoundConsignment) ∧
     (mediaGet (mkAIDParams "k1")
        (rpcMediaPostReq (mkAIDParams "k1") (some [104, 101, 108, 108, 111]) "t" (St.mk [] [] [] [] [])).2 =
        .ok (base64Encode [104, 101, 108, 108, 111]) ∧
      mediaGet (mkAIDParams "k2")
        (rpcMediaPostReq (mkAIDParams "k1") (some [104, 101, 108, 108, 111]) "t" (St.mk [] [] [] [] [])).2 =
        .error .notFoundMedia) ∧
     base64Decode (base64Encode [104, 101, 108, 108, 111]) = some [104, 101, 108, 108, 111]) :=
  ⟨by decide, by decide, by decide, by decide, by decide, by decide, by decide, by decide,
    C9_round_trip (St.mk [] [] [] [] []) "k1" "k2" "t" [104, 101, 108, 108, 111]
      (by decide) (by decide) (by decide) (by decide) (by decide) (by decide) (by decide)
      (by decide)⟩

lemma mem_updateFirst {l : List Consignment} {k : String} {f : Consignment → Consignment}
    {x : Consignment} (hx : x ∈ updateFirst l k f) : x ∈ l ∨ ∃ c ∈ l, x = f c := by
  induction l with
  | nil => simp [updateFirst] at hx
  | cons c rest ih =>
    simp only [updateFirst] at hx
    by_cases hck : (c.blindedutxo == k) = true
    · rw [if_pos hck] at hx
      rcases List.mem_cons.mp hx with h | h
      · exact Or.inr ⟨c, by simp, h⟩
      · exact Or.inl (List.mem_cons.mpr (Or.inr h))
    · rw [if_neg hck] at hx
      rcases List.mem_cons.mp hx with h | h
      · exact Or.inl (by simp [h])
      · rcases ih h with h2 | ⟨c2, hc2, he⟩
        · exact Or.inl (by simp [h2])
        · exact Or.inr ⟨c2, by simp [hc2], he⟩


lemma consignmentPost_consignments (params : Option JValue) (file : Option String) (s : St) :
    (consignmentPost params file s).2.consignments = s.consignments ∨
    ∃ h k, (consignmentPost params file s).2.consignments =
      s.consignments ++ [{ filename := h, blindedutxo := k }] := by
  unfold consignmentPost consignmentPostBody
  cases hb : getBlindedUTXOParam params with
  | error e =>
    cases file with
    | none => simp
    | some fname =>
      left
      cases hex : existsSync s.tempDir fname <;> simp [hex]
  | ok k2 =>
    cases file with
    | none => simp
    | some fname =>
      cases hr : readFile s.tempDir fname with
      | none =>
        left
        cases hex : existsSync s.tempDir fname <;> simp [hr, hex]
      | some bytes =>
        cases hf : findOneConsignment s.consignments k2 with
        | none =>
          right
          exact ⟨genHashFromFile bytes, k2, by simp [hr, hf]⟩
        | some prev =>
          by_cases hh : prev.filename = genHashFromFile bytes
          · simp [hr, hf, hh]
          · left
            cases hex : existsSync s.tempDir fname <;> simp [hr, hf, hh, hex]

lemma restPostConsignment_consignments (b f : Option String) (s : St) :
    (restPostConsignment b f s).2.consignments = s.consignments ∨
    ∃ h k, (restPostConsignment b f s).2.consignments =
      s.consignments ++ [{ filename := h, blindedutxo := k }] := by
  unfold restPostConsignment
  by_cases hsf : strFalsy b = true
  · simp [hsf]
  · simp only [hsf, if_false]
    cases f with
    | none => simp
    | some fname =>
      cases hr : readFile s.tempDir fname with
      | none => simp [hr]
      | some bytes =>
        cases hf : findOneConsignment s.consignments (b.getD "") with
        | none =>
          right
          refine ⟨genHashFromFile bytes, b.getD "", ?_⟩
          simp [hr, hf, existsSync_unlinkSync]
        | some prev =>
          by_cases hh : prev.filename = genHashFromFile bytes <;> simp [hr, hf, hh]

/-- C2 (amended): the legacy REST routes `POST /ack` and `POST /nack`
preserve legacy-field consistency of every stored consignment record, and
record creation keeps the store consistent as well — the upload handlers
(JSON-RPC `consignment.post` and REST `POST /consignment`) create records
with `ack`, `nack` and `responded` all unset, which is consistent; the
amendment is that a successful JSON-RPC `ack.post` does not keep the
legacy fields consistent — it sets `ack` alone, leaving `responded` and
`nack` unset (see the counterexample). -/
theorem C2_legacy_fields_amended (s : St) (b : Option String)
    (hall : ∀ c ∈ s.consignments, legacyConsistent c) :
    (∀ c ∈ (restPostAck b s).2.consignments, legacyConsistent c) ∧
    (∀ c ∈ (restPostNack b s).2.consignments, legacyConsistent c) ∧
    (∀ params file, ∀ c ∈ (consignmentPost params file s).2.consignments,
      legacyConsistent c) ∧
    (∀ b2 f, ∀ c ∈ (restPostConsignment b2 f s).2.consignments, legacyConsistent c) := by
  refine ⟨?_, ?_, ?_, ?_⟩
  · intro c2 hc2
    rcases restPostAck_state b s with h | ⟨k2, c0, hf, hr, h⟩
    · rw [h] at hc2
      exact hall c2 hc2
    · rw [h] at hc2
      rcases mem_updateFirst hc2 with hmem | ⟨c3, hc3, he⟩
      · exact hall c2 hmem
      · subst he
        simp [legacyConsistent]
  · intro c2 hc2
    rcases restPostNack_state b s with h | ⟨k2, c0, hf, hr, h⟩
    · rw [h] at hc2
      exact hall c2 hc2
    · rw [h] at hc2
      rcases mem_updateFirst hc2 with hmem | ⟨c3, hc3, he⟩
      · exact hall c2 hmem
      · subst he
        simp [legacyConsistent]
  · intro params file c2 hc2
    rcases consignmentPost_consignments params file s with h | ⟨hsh, k2, h⟩
    · rw [h] at hc2
      exact hall c2 hc2
    · rw [h] at hc2
      rcases List.mem_append.mp hc2 with hmem | hmem
      · exact hall c2 hmem
      · simp only [List.mem_singleton] at hmem
        subst hmem
        simp [legacyConsistent]
  · intro b2 f c2 hc2
    rcases restPostConsignment_consignments b2 f s with h | ⟨hsh, k2, h⟩
    · rw [h] at hc2
      exact hall c2 hc2
    · rw [h] at hc2
      rcases List.mem_append.mp hc2 with hmem | hmem
      · exact hall c2 hmem
      · simp only [List.mem_singleton] at hmem
        subst hmem
        simp [legacyConsistent]

theorem C2_witness :
    (∀ c ∈ (St.mk [Consignment.mk "f" "k" none none none] [] [] [] [] : St).consignments,
      legacyConsistent c) ∧
    ((∀ c ∈ (restPostAck (some "k")
        (St.mk [Consignment.mk "f" "k" none none none] [] [] [] [])).2.consignments,
      legacyConsistent c) ∧
     (∀ c ∈ (restPostNack (some "k")
        (St.mk [Consignment.mk "f" "k" none none none] [] [] [] [])).2.consignments,
      legacyConsistent c) ∧
     (∀ params file, ∀ c ∈ (consignmentPost params file
        (St.mk [Consignment.mk "f" "k" none none none] [] [] [] [])).2.consignments,
      legacyConsistent c) ∧
     (∀ b2 f, ∀ c ∈ (restPostConsignment b2 f
        (St.mk [Consignment.mk "f" "k" none none none] [] [] [] [])).2.consignments,
      legacyConsistent c)) :=
  ⟨by simp [legacyConsistent],
    C2_legacy_fields_amended (St.mk [Consignment.mk "f" "k" none none none] [] [] [] [])
      (some "k") (by simp [legacyConsistent])⟩

/-- C2 fails as stated: a successful `ack.post` on an undecided record sets
`ack` but leaves `responded` and `nack` unset, so `responded` is not
equivalent to "`ack` is set" afterwards. -/
theorem C2_counterexample :
    findOneConsignment (ackPost (mkAckParams "k" true)
        (St.mk [Consignment.mk "f" "k" none none none] [] [] [] [])).2.consignments "k" =
      some (Consignment.mk "f" "k" (some true) none none) ∧
    ¬ legacyConsistent (Consignment.mk "f" "k" (some true) none none) := by
  constructor
  · decide
  · simp [legacyConsistent]

/-- C6 (amended): the legacy routes guard on the legacy `responded` flag:
whenever the `responded` flag of a record is set — as both routes leave it after
recording a decision in either direction — `POST /ack` and `POST /nack`
fail with HTTP 403 "Already responded!" and change nothing, even on
same-value resubmission; the amendment is that the guard is the `responded`
flag rather than "`ack` undecided": a record decided only through
`ack.post`, which leaves `responded` unset, does not trigger the guard
(see the counterexample). -/
theorem C6_legacy_routes_amended (s : St) (k : String) (c : Consignment)
    (hk : k ≠ "") (hfind : findOneConsignment s.consignments k = some c)
    (hresp : c.responded = some true) :
    restPostAck (some k) s =
      (RestResp.mk 403 [("success", .vbool false), ("error", .vstr "Already responded!")], s) ∧
    restPostNack (some k) s =
      (RestResp.mk 403 [("success", .vbool false), ("error", .vstr "Already responded!")], s) := by
  have h1 : strFalsy (some k) = false := by simp [strFalsy, hk]
  constructor
  · simp [restPostAck, h1, hfind, hresp]
  · simp [restPostNack, h1, hfind, hresp]

theorem C6_witness :
    ("k" : String) ≠ "" ∧
    findOneConsignment
      (St.mk [Consignment.mk "f" "k" (some true) (some false) (some true)] [] [] [] []).consignments "k" =
      some (Consignment.mk "f" "k" (some true) (some false) (some true)) ∧
    (Consignment.mk "f" "k" (some true) (some false) (some true)).responded = some true ∧
    (restPostAck (some "k") (St.mk [Consignment.mk "f" "k" (some true) (some false) (some true)] [] [] [] []) =
      (RestResp.mk 403 [("success", .vbool false), ("error", .vstr "Already responded!")],
        St.mk [Consignment.mk "f" "k" (some true) (some false) (some true)] [] [] [] []) ∧
     restPostNack (some "k") (St.mk [Consignment.mk "f" "k" (some true) (some false) (some true)] [] [] [] []) =
      (RestResp.mk 403 [("success", .vbool false), ("error", .vstr "Already responded!")],
        St.mk [Consignment.mk "f" "k" (some true) (some false) (some true)] [] [] [] [])) :=
  ⟨by decide, by decide, by decide,
    C6_legacy_routes_amended (St.mk [Consignment.mk "f" "k" (some true) (some false) (some true)] [] [] [] [])
      "k" (Consignment.mk "f" "k" (some true) (some false) (some true))
      (by decide) (by decide) (by decide)⟩

/-- C6 fails as stated: a record decided through `ack.post` (here `ack =
false`) is not undecided, yet `POST /nack` — resubmitting the same value —
succeeds with 200 instead of failing with 403, because the route checks
only the legacy `responded` flag, which `ack.post` leaves unset. -/
theorem C6_counterexample :
    (findOneConsignment (ackPost (mkAckParams "k" false)
        (St.mk [Consignment.mk "f" "k" none none none] [] [] [] [])).2.consignments "k").map
        Consignment.ack = some (some false) ∧
    (restPostNack (some "k") (ackPost (mkAckParams "k" false)
        (St.mk [Consignment.mk "f" "k" none none none] [] [] [] [])).2).1.status = 200 := by
  decide

/-- C10: `GET /getinfo` answers HTTP 200 with a body holding exactly the
fields `version` and `uptime` (the uptime truncated to an integer); unlike
the JSON-RPC `server.info` result it carries no `protocol_version` field
and no `success` envelope. -/
theorem C10_getinfo_shape (uptime : ℚ) :
    (restGetinfo uptime).status = 200 ∧
    (restGetinfo uptime).body.map Prod.fst = ["version", "uptime"] ∧
    (restGetinfo uptime).body =
      [("version", .vstr APP_VERSION), ("uptime", .vnum (mathTrunc uptime))] ∧
    "protocol_version" ∈ (serverInfo uptime).map Prod.fst ∧
    ¬ "protocol_version" ∈ (restGetinfo uptime).body.map Prod.fst ∧
    ¬ "success" ∈ (restGetinfo uptime).body.map Prod.fst := by
  simp [restGetinfo, serverInfo]

lemma unlinkSync_staged {d : Dir} {t : String} (b : List Nat)
    (h : existsSync d t = false) : unlinkSync ((t, b) :: d) t = d := by
  have hall : ∀ a ∈ d, ¬ a.1 = t := by
    simp only [existsSync, List.any_eq_true, not_exists] at h
    intro a ha hc
    simp [List.any_eq_true] at h
    exact absurd hc (h a.1 a.2 (by simpa using ha))
  simp only [unlinkSync, List.filter, beq_self_eq_true, Bool.not_true]
  exact List.filter_eq_self.mpr (fun a ha => by simp [hall a ha])

/-- C8 (amended): for every upload and get operation the key parameter is
validated before any store access — an absent key fails with the matching
`Missing<Param>` error and a present but falsy or non-string key with the
matching `Invalid<Param>` error, on `consignment.post`, `media.post`,
`consignment.get`, `media.get` and `ack.get` alike — and a call failing
validation performs no store mutation and persists no file even when a
file payload was supplied; for `ack.post` the `ack` parameter is validated
with the same `Missing`/`Invalid` errors but only after the consignment
lookup — a store read — has succeeded (see the counterexample), and still
mutates nothing. -/
theorem C8_validation_amended (s : St) (k t : String) (c : Consignment) (bytes : List Nat)
    (hk : k ≠ "") (ht : existsSync s.tempDir t = false)
    (hfind : findOneConsignment s.consignments k = some c) :
    rpcConsignmentPostReq (some (.vdict [])) (some bytes) t s =
      (.error .missingBlindedUTXO, s) ∧
    rpcConsignmentPostReq (mkBUParams "") (some bytes) t s =
      (.error .invalidBlindedUTXO, s) ∧
    rpcConsignmentPostReq (some (.vdict [("blinded_utxo", .vnum 5)])) (some bytes) t s =
      (.error .invalidBlindedUTXO, s) ∧
    rpcMediaPostReq (some (.vdict [])) (some bytes) t s =
      (.error .missingAttachmentID, s) ∧
    rpcMediaPostReq (mkAIDParams "") (some bytes) t s =
      (.error .invalidAttachmentID, s) ∧
    consignmentGet (some (.vdict [])) s = .error .missingBlindedUTXO ∧
    consignmentGet (mkBUParams "") s = .error .invalidBlindedUTXO ∧
    mediaGet (some (.vdict [])) s = .error .missingAttachmentID ∧
    mediaGet (some (.vdict [("attachment_id", .vnum 5)])) s =
      .error .invalidAttachmentID ∧
    ackGet (some (.vdict [])) s = .error .missingBlindedUTXO ∧
    ackPost (mkBUParams k) s = (.error .missingAck, s) ∧
    ackPost (some (.vdict [("blinded_utxo", .vstr k), ("ack", .vstr "x")])) s =
      (.error .invalidAck, s) := by
  have hcleanup := unlinkSync_staged (d := s.tempDir) (t := t) bytes ht
  refine ⟨?_, ?_, ?_, ?_, ?_, ?_, ?_, ?_, ?_, ?_, ?_, ?_⟩
  · simp [rpcConsignmentPostReq, stageFile, consignmentPost, consignmentPostBody,
      getBlindedUTXOParam, dictLookup, List.find?, existsSync, hcleanup]
  · simp [rpcConsignmentPostReq, stageFile, consignmentPost, consignmentPostBody,
      getBlindedUTXOParam, mkBUParams, dictLookup, List.find?, JValue.truthy, JValue.isStr,
      existsSync, hcleanup]
  · simp [rpcConsignmentPostReq, stageFile, consignmentPost, consignmentPostBody,
      getBlindedUTXOParam, dictLookup, List.find?, JValue.truthy, JValue.isStr,
      existsSync, hcleanup]
  · simp [rpcMediaPostReq, stageFile, mediaPost, mediaPostBody,
      getAttachmentIDParam, dictLookup, List.find?, existsSync, hcleanup]
  · simp [rpcMediaPostReq, stageFile, mediaPost, mediaPostBody, getAttachmentIDParam,
      mkAIDParams, dictLookup, List.find?, JValue.truthy, JValue.isStr,
      existsSync, hcleanup]
  · simp [consignmentGet, getConsignment, getBlindedUTXOParam, dictLookup, List.find?]
  · simp [consignmentGet, getConsignment, getBlindedUTXOParam, mkBUParams, dictLookup,
      List.find?, JValue.truthy, JValue.isStr]
  · simp [mediaGet, getAttachmentIDParam, dictLookup, List.find?]
  · simp [mediaGet, getAttachmentIDParam, dictLookup, List.find?, JValue.truthy,
      JValue.isStr]
  · simp [ackGet, getConsignment, getBlindedUTXOParam, dictLookup, List.find?]
  · simp [ackPost, getConsignment, getBlindedUTXOParam, mkBUParams, dictLookup,
      List.find?, JValue.truthy, JValue.isStr, JValue.getStr, hk, hfind, getAckParam]
  · simp [ackPost, getConsignment, getBlindedUTXOParam, dictLookup,
      List.find?, JValue.truthy, JValue.isStr, JValue.getStr, hk, hfind, getAckParam]

theorem C8_witness :
    ("k" : String) ≠ "" ∧
    existsSync (St.mk [Consignment.mk "f" "k" none none none] [] [] [] [] : St).tempDir "t" = false ∧
    findOneConsignment (St.mk [Consignment.mk "f" "k" none none none] [] [] [] [] : St).consignments "k" =
      some (Consignment.mk "f" "k" none none none) ∧
    (rpcConsignmentPostReq (some (.vdict [])) (some [1]) "t"
        (St.mk [Consignment.mk "f" "k" none none none] [] [] [] []) =
      (.error .missingBlindedUTXO, St.mk [Consignment.mk "f" "k" none none none] [] [] [] []) ∧
     rpcConsignmentPostReq (mkBUParams "") (some [1]) "t"
        (St.mk [Consignment.mk "f" "k" none none none] [] [] [] []) =
      (.error .invalidBlindedUTXO, St.mk [Consignment.mk "f" "k" none none none] [] [] [] []) ∧
     rpcConsignmentPostReq (some (.vdict [("blinded_utxo", .vnum 5)])) (some [1]) "t"
        (St.mk [Consignment.mk "f" "k" none none none] [] [] [] []) =
      (.error .invalidBlindedUTXO, St.mk [Consignment.mk "f" "k" none none none] [] [] [] []) ∧
     rpcMediaPostReq (some (.vdict [])) (some [1]) "t"
        (St.mk [Consignment.mk "f" "k" none none none] [] [] [] []) =
      (.error .missingAttachmentID, St.mk [Consignment.mk "f" "k" none none none] [] [] [] []) ∧
     rpcMediaPostReq (mkAIDParams "") (some [1]) "t"
        (St.mk [Consignment.mk "f" "k" none none none] [] [] [] []) =
      (.error .invalidAttachmentID, St.mk [Consignment.mk "f" "k" none none none] [] [] [] []) ∧
     consignmentGet (some (.vdict []))
        (St.mk [Consignment.mk "f" "k" none none none] [] [] [] []) =
      .error .missingBlindedUTXO ∧
     consignmentGet (mkBUParams "")
        (St.mk [Consignment.mk "f" "k" none none none] [] [] [] []) =
      .error .invalidBlindedUTXO ∧
     mediaGet (some (.vdict []))
        (St.mk [Consignment.mk "f" "k" none none none] [] [] [] []) =
      .error .missingAttachmentID ∧
     mediaGet (some (.vdict [("attachment_id", .vnum 5)]))
        (St.mk [Consignment.mk "f" "k" none none none] [] [] [] []) =
      .error .invalidAttachmentID ∧
     ackGet (some (.vdict []))
        (St.mk [Consignment.mk "f" "k" none none none] [] [] [] []) =
      .error .missingBlindedUTXO ∧
     ackPost (mkBUParams "k") (St.mk [Consignment.mk "f" "k" none none none] [] [] [] []) =
      (.error .missingAck, St.mk [Consignment.mk "f" "k" none none none] [] [] [] []) ∧
     ackPost (some (.vdict [("blinded_utxo", .vstr "k"), ("ack", .vstr "x")]))
        (St.mk [Consignment.mk "f" "k" none none none] [] [] [] []) =
      (.error .invalidAck, St.mk [Consignment.mk "f" "k" none none none] [] [] [] [])) :=
  ⟨by decide, by decide, by decide,
    C8_validation_amended (St.mk [Consignment.mk "f" "k" none none none] [] [] [] [])
      "k" "t" (Consignment.mk "f" "k" none none none) [1]
      (by decide) (by decide) (by decide)⟩

/-- C8 fails as stated for `ack.post`: the `ack` parameter is a required
parameter, yet a call with `ack` absent and an unknown `blinded_utxo` fails
with `NotFoundConsignment` — the consignment lookup (a store access) runs
before the `ack` validation, so the expected `MissingAck` is not produced. -/
theorem C8_counterexample :
    ackPost (mkBUParams "k") (St.mk [] [] [] [] []) =
      (.error .notFoundConsignment, St.mk [] [] [] [] []) ∧
    ¬ (ApiError.notFoundConsignment = ApiError.missingAck) := by
  constructor
  · rfl
  · decide
